import Mathlib

/-!
Shallow embedding of `src/cli/server.py` (Matter web-control bridge).

The embedding models the pure data layer of the bridge:
* `buildStates` / `updateCache` mirror `MatterBridgeServer._update_cache`,
* `resolve_id` mirrors `MatterBridgeServer.resolve_id`,
* `serve_lighting_api`, `serve_name_api`, `serve_callback_api`, `setCommands`
  mirror the corresponding aiohttp handlers,
* `establish_connection` / `is_ready` mirror the connection bootstrap and the
  `require_server_ready` guard.

Python dictionaries are modelled as association lists in insertion order
(assignment `d[k] = v` is `dictSet`), Python `None` and heterogeneous JSON
values as the `PyVal` inductive, Python floats as rationals, and `int(x)` on a
positive quotient as integer (floor) division.
-/

/-- JSON/Python value stored in a device's `states` dictionary. -/
inductive PyVal where
  | vnone : PyVal
  | vbool : Bool → PyVal
  | vint : Int → PyVal
deriving DecidableEq

/-- State-dictionary key `"on_off"`. -/
def kOnOff : String := "on_off"

/-- State-dictionary key `"brightness_raw"`. -/
def kBrightnessRaw : String := "brightness_raw"

/-- State-dictionary key `"color_temp_mireds"`. -/
def kColorTempMireds : String := "color_temp_mireds"

def kIlluminance : String := "illuminance"

def kTemperature : String := "temperature"

def kPressure : String := "pressure"

def kHumidity : String := "humidity"

def kOccupancy : String := "occupancy"

def kContact : String := "contact"

/-- The `SENSOR_CLUSTERS` table: cluster id, attribute name, attribute index,
scale (scale is unused by the code paths modelled here, as in the source). -/
def SENSOR_CLUSTERS : List (Nat × String × Nat × Nat) :=
  [(1024, kIlluminance, 0, 1),
   (1026, kTemperature, 0, 100),
   (1027, kPressure, 0, 10),
   (1029, kHumidity, 0, 100),
   (1030, kOccupancy, 0, 1),
   (69, kContact, 0, 1)]

/-- Python dict assignment `d[k] = v` on an insertion-ordered association
list: replaces the value of an existing key in place, otherwise appends. -/
def dictSet {α : Type} (d : List (String × α)) (k : String) (v : α) :
    List (String × α) :=
  match d with
  | [] => [(k, v)]
  | p :: rest => if p.1 = k then (k, v) :: rest else p :: dictSet rest k v

/-- One mesh node as exposed by the mesh client: a node id, the endpoint map
(endpoint id paired with the endpoint's cluster-id set), and the
`get_attribute_value(endpoint_id, cluster_id, attribute_id)` accessor. -/
structure MeshNode where
  node_id : Nat
  endpoints : List (Nat × List Nat)
  attr : Nat → Nat → Nat → Option Int

/-- One cached device entry, as appended by `_update_cache`. -/
structure Device where
  id : String
  node_id : Nat
  endpoint_id : Nat
  states : List (String × PyVal)
deriving DecidableEq

/-- `f"dev_{node_id}_{endpoint_id}"`. -/
def mkDeviceId (n e : Nat) : String :=
  "dev_" ++ toString n ++ "_" ++ toString e

/-- The sensor-extraction step of `_update_cache`: for one `SENSOR_CLUSTERS`
entry, produce the `states` item when the cluster is present and the attribute
value is not `None`. -/
def sensorExtract (attr : Nat → Nat → Option Int) (clusters : List Nat)
    (entry : Nat × String × Nat × Nat) : Option (String × PyVal) :=
  if entry.1 ∈ clusters then
    match attr entry.1 entry.2.2.1 with
    | some v => some (entry.2.1, PyVal.vint v)
    | none => none
  else none

/-- The `states` dictionary built by `_update_cache` for one endpoint:
lighting clusters 6/8/768 first, then the sensor clusters in table order. -/
def buildStates (attr : Nat → Nat → Option Int) (clusters : List Nat) :
    List (String × PyVal) :=
  (if 6 ∈ clusters then
     [(kOnOff,
       match attr 6 0 with
       | none => PyVal.vnone
       | some v => PyVal.vbool (v != 0))]
   else [])
  ++ (if 8 ∈ clusters then
     [(kBrightnessRaw,
       match attr 8 0 with
       | none => PyVal.vnone
       | some v => PyVal.vint v)]
   else [])
  ++ (if 768 ∈ clusters then
     [(kColorTempMireds,
       match attr 768 7 with
       | none => PyVal.vnone
       | some v => PyVal.vint v)]
   else [])
  ++ SENSOR_CLUSTERS.filterMap (sensorExtract attr clusters)

/-- The device entry `_update_cache` appends for one `(node, endpoint)`. -/
def deviceOf (node : MeshNode) (ep : Nat × List Nat) : Device :=
  ⟨mkDeviceId node.node_id ep.1, node.node_id, ep.1,
   buildStates (node.attr ep.1) ep.2⟩

/-- Python comparison `x == 0` on a stored state value (`False == 0` is true
in Python, `None == 0` is false). -/
def pyEqZero : PyVal → Bool
  | PyVal.vint v => v == 0
  | PyVal.vbool b => !b
  | PyVal.vnone => false

/-- `prev_device.get("states", {}).get("occupancy", 0) if prev_device else 0`:
the occupancy value of a device id in the previous snapshot. -/
def prevOccupancyVal (cached : List Device) (device_id : String) : PyVal :=
  match cached.find? (fun d => d.id == device_id) with
  | none => PyVal.vint 0
  | some d => (d.states.lookup kOccupancy).getD (PyVal.vint 0)

/-- The rising-edge condition of `_update_cache`: occupancy cluster present,
its attribute reads exactly 1, and the previous snapshot's value compared
equal to 0. -/
def occupancyRise (cached : List Device) (attr : Nat → Nat → Option Int)
    (clusters : List Nat) (device_id : String) : Bool :=
  if 1030 ∈ clusters then
    match attr 1030 0 with
    | some v => v == 1 && pyEqZero (prevOccupancyVal cached device_id)
    | none => false
  else false

/-- The state mutated by one `_update_cache` run: the device list being built,
the occupancy-history dictionary, the `occupancy_updated` flag and the
`triggered_callbacks` list. -/
structure RebuildResult where
  devices : List Device
  history : List (String × Int)
  occupancy_updated : Bool
  triggered : List String
deriving DecidableEq

/-- The body of the endpoint loop in `_update_cache`: append the device entry,
and on a rising edge stamp the history with the current time and queue the
registered callback, if any. -/
def processEndpoint (cached : List Device) (callbacks : List (String × String))
    (now : Int) (node : MeshNode) (ep : Nat × List Nat) (acc : RebuildResult) :
    RebuildResult :=
  let device_id := mkDeviceId node.node_id ep.1
  let rise := occupancyRise cached (node.attr ep.1) ep.2 device_id
  { devices := acc.devices ++ [deviceOf node ep]
    history := if rise then dictSet acc.history device_id now else acc.history
    occupancy_updated := acc.occupancy_updated || rise
    triggered :=
      if rise then
        match callbacks.lookup device_id with
        | some s => acc.triggered ++ [s]
        | none => acc.triggered
      else acc.triggered }

/-- `_update_cache`: a no-op when the client is unset, otherwise a full
rebuild walking every node and endpoint. `cached` is the previous snapshot
(`self.cached_devices`), `hist` the occupancy history, `callbacks` the
callback registry and `now` the value of `int(time.time())`. -/
def updateCache (clientSet : Bool) (mesh : List MeshNode)
    (cached : List Device) (hist : List (String × Int))
    (callbacks : List (String × String)) (now : Int) : RebuildResult :=
  if clientSet then
    mesh.foldl
      (fun acc node =>
        node.endpoints.foldl
          (fun acc2 ep => processEndpoint cached callbacks now node ep acc2)
          acc)
      ⟨[], hist, false, []⟩
  else ⟨cached, hist, false, []⟩

/-- The snapshot produced by a rebuild, as a pure function of the mesh. -/
def devicesOf (mesh : List MeshNode) : List Device :=
  mesh.flatMap (fun node => node.endpoints.map (deviceOf node))

/-- The `(node_id, endpoint_id)` pairs enumerated from the mesh client. -/
def meshPairs (mesh : List MeshNode) : List (Nat × Nat) :=
  mesh.flatMap (fun node => node.endpoints.map (fun ep => (node.node_id, ep.1)))

/-- Spec-side map from a `states` key to the cluster id it is extracted
from. -/
def clusterOfKey (k : String) : Nat :=
  if k = kOnOff then 6
  else if k = kBrightnessRaw then 8
  else if k = kColorTempMireds then 768
  else if k = kIlluminance then 1024
  else if k = kTemperature then 1026
  else if k = kPressure then 1027
  else if k = kHumidity then 1029
  else if k = kOccupancy then 1030
  else if k = kContact then 69
  else 0

/-- The canonical-id marker tested by `identifier.startswith("dev_")`. -/
def devIdMarker : String := "dev_"

/-- `identifier.startswith("dev_")`, computed on the character lists. -/
def startsWithDev (identifier : String) : Bool :=
  List.isPrefixOf devIdMarker.data identifier.data

/-- `resolve_id` after its emptiness guard: canonical ids resolve to
themselves, otherwise the alias sets are scanned in order and an unmatched
identifier is returned unchanged. -/
def resolve_id_core (device_names : List (String × List String))
    (identifier : String) : String :=
  if startsWithDev identifier then identifier
  else
    match device_names.find? (fun p => p.2.contains identifier) with
    | some p => p.1
    | none => identifier

/-- `MatterBridgeServer.resolve_id`: `None` for a falsy identifier. -/
def resolve_id (device_names : List (String × List String))
    (identifier : String) : Option String :=
  if identifier = "" then none
  else some (resolve_id_core device_names identifier)

/-- Outcome of the `/api/name` handler. -/
inductive NameResult where
  | missingParam : NameResult
  | conflict : NameResult
  | ok : String → List String → NameResult
deriving DecidableEq

/-- The mutation step of `serve_name_api` once the conflict check has passed:
create the empty alias list if needed, then append the name if new. -/
def addAlias (device_names : List (String × List String))
    (rid new_name : String) : List (String × List String) :=
  let reg1 :=
    if (device_names.lookup rid).isSome then device_names
    else device_names ++ [(rid, [])]
  if new_name ∈ (reg1.lookup rid).getD [] then reg1
  else reg1.map (fun p => if p.1 = rid then (p.1, p.2 ++ [new_name]) else p)

/-- `serve_name_api`: missing-parameter check, global-uniqueness conflict
check, then alias insertion. Returns the HTTP outcome and the registry
afterwards. -/
def serve_name_api (device_names : List (String × List String))
    (device_id new_name : String) :
    NameResult × List (String × List String) :=
  if device_id = "" || new_name = "" then (NameResult.missingParam, device_names)
  else
    let resolved_id := resolve_id_core device_names device_id
    if device_names.any (fun p => p.2.contains new_name && p.1 != resolved_id) then
      (NameResult.conflict, device_names)
    else
      let reg := addAlias device_names resolved_id new_name
      (NameResult.ok resolved_id ((reg.lookup resolved_id).getD []), reg)

/-- `states.get(key)` restricted to boolean values: `None` for an absent key
or a stored `None`, as for the `on_off` state. -/
def pyGetBool (states : List (String × PyVal)) (k : String) : Option Bool :=
  match states.lookup k with
  | some (PyVal.vbool b) => some b
  | _ => none

/-- Python truthiness of an optional boolean: only `True` is truthy. -/
def pyTruthy (o : Option Bool) : Bool := o == some true

/-- Round-half-to-even on rationals, the rounding used by Python's
`round`. -/
def roundHalfEven (q : ℚ) : ℤ :=
  let f : ℤ := ⌊q⌋
  let frac : ℚ := q - (f : ℚ)
  if frac < 1/2 then f
  else if 1/2 < frac then f + 1
  else if f % 2 = 0 then f else f + 1

/-- Python `round(q, 2)`. -/
def pyRound2 (q : ℚ) : ℚ := ((roundHalfEven (q * 100) : ℤ) : ℚ) / 100

/-- One element of the `/api/lights` response. -/
structure LightingEntry where
  id : String
  names : List String
  state : Option Bool
  brightness : Option ℚ
  temperature : Option Int
deriving DecidableEq

/-- The `mapped_brightness` computation of `serve_lighting_api`: scale the
raw level when present and not `None`, clamped and rounded to two decimals,
then force 0.0 whenever the `on_off` state is falsy. -/
def lightingBrightness (states : List (String × PyVal)) : Option ℚ :=
  match states.lookup kBrightnessRaw with
  | some (PyVal.vint v) =>
      some (if pyTruthy (pyGetBool states kOnOff)
            then pyRound2 (max 0 (min 1 ((v : ℚ) / 254)))
            else 0)
  | _ => none

/-- The `color_temp_kelvin` computation of `serve_lighting_api`:
`int(1000000 / mireds)` (integer division on a positive divisor) when the
mireds value is present, not `None` and positive; `None` otherwise. -/
def lightingTemp (states : List (String × PyVal)) : Option Int :=
  match states.lookup kColorTempMireds with
  | some (PyVal.vint m) => if 0 < m then some (1000000 / m) else none
  | _ => none

/-- The per-device body of `serve_lighting_api`: `none` when the device has
neither an `on_off` nor a `brightness_raw` key, otherwise the derived
lighting entry. -/
def lightingEntryOf (device_names : List (String × List String))
    (d : Device) : Option LightingEntry :=
  if (d.states.lookup kOnOff).isSome || (d.states.lookup kBrightnessRaw).isSome then
    some ⟨d.id, (device_names.lookup d.id).getD [],
      pyGetBool d.states kOnOff,
      lightingBrightness d.states,
      lightingTemp d.states⟩
  else none

/-- `serve_lighting_api`: the lighting view over the cached snapshot. -/
def serve_lighting_api (device_names : List (String × List String))
    (cached : List Device) : List LightingEntry :=
  cached.filterMap (lightingEntryOf device_names)

/-- Spec-side Kelvin computation, as the spec words it:
`round(1_000_000 / mireds)`. -/
def specRoundKelvin (m : Int) : Int := roundHalfEven ((1000000 : ℚ) / (m : ℚ))

/-- A device command sent through `send_device_command`. -/
inductive Command where
  | off : Command
  | moveToLevelWithOnOff : Int → Int → Command
  | moveToColorTemperature : Int → Int → Int → Int → Command
deriving DecidableEq

/-- The command-dispatch core of `serve_set_api`: the commands sent for the
parsed optional `brightness` (a float, clamped to `[0, 1]`) and optional
`temperature` (an int).  `int(brightness * 254)` truncates and
`int(1000000 / temp_kelvin)` on a positive divisor is integer division. -/
def setCommands (brightness : Option ℚ) (temperature : Option Int) :
    List Command :=
  (match brightness with
   | none => []
   | some b0 =>
     let b := max 0 (min 1 b0)
     if b = 0 then [Command.off]
     else [Command.moveToLevelWithOnOff (max 1 ⌊b * 254⌋) 0])
  ++ (match temperature with
      | none => []
      | some t =>
        if 0 < t then [Command.moveToColorTemperature (1000000 / t) 0 0 0]
        else [])

/-- Spec-side level computation, as the spec words it:
`max(1, round(brightness * 254))`. -/
def specLevel (b : ℚ) : Int := max 1 (roundHalfEven (b * 254))

/-- Outcome of the `/api/callback` handler. -/
inductive CallbackResult where
  | missingParam : CallbackResult
  | invalidReference : CallbackResult
  | ok : String → String → CallbackResult
deriving DecidableEq

/-- `serve_callback_api`: parameter check, `os.path.isfile` existence check
(`isfile` abstracts the filesystem), then registration overwriting any prior
entry and persisting.  Returns the HTTP outcome, the registry afterwards, and
whether `_save_callbacks` ran. -/
def serve_callback_api (isfile : String → Bool)
    (device_names : List (String × List String))
    (occupancy_callbacks : List (String × String))
    (device_id script_path : String) :
    CallbackResult × List (String × String) × Bool :=
  if device_id = "" || script_path = "" then
    (CallbackResult.missingParam, occupancy_callbacks, false)
  else
    let resolved_id := resolve_id_core device_names device_id
    if !(isfile script_path) then
      (CallbackResult.invalidReference, occupancy_callbacks, false)
    else
      (CallbackResult.ok resolved_id script_path,
       dictSet occupancy_callbacks resolved_id script_path, true)

/-- `is_ready`: true exactly when `self.client is not None`. -/
def is_ready (client : Option Unit) : Bool := client.isSome

/-- `establish_connection`: constructs the client object, then attempts
`connect()` up to 15 times; `connect_ok n` tells whether attempt `n`
succeeds.  Returns the client field afterwards and the boolean result. -/
def establish_connection (connect_ok : Nat → Bool) : Option Unit × Bool :=
  (some (), (List.range 15).any connect_ok)

/-- The `require_server_ready` decorator: true when the request is rejected
with a 503 response. -/
def require_server_ready_rejects (client : Option Unit) : Bool :=
  !(is_ready client)

/-! Concrete data used by the occupancy-sequence scenario and witnesses. -/

/-- Attribute accessor of a single-endpoint occupancy sensor reading `v`. -/
def occAttr (v : Int) : Nat → Nat → Nat → Option Int :=
  fun e c a => if e = 1 ∧ c = 1030 ∧ a = 0 then some v else none

/-- A mesh node `7` with one endpoint `1` carrying only the occupancy
cluster, whose occupancy attribute reads `v`. -/
def occNode (v : Int) : MeshNode := ⟨7, [(1, [1030])], occAttr v⟩

/-- The device id of the occupancy sensor above. -/
def occId : String := mkDeviceId 7 1

/-- A registered callback script path. -/
def cbPath : String := "motion.sh"

/-- A callback registry mapping the occupancy sensor to `cbPath`. -/
def occCbs : List (String × String) := [(occId, cbPath)]

/-- Rebuild 1 of the occupancy sequence `[0,1,1,0,1]`, from an empty cache. -/
def occR1 : RebuildResult := updateCache true [occNode 0] [] [] occCbs 11

/-- Rebuild 2 (occupancy 1). -/
def occR2 : RebuildResult :=
  updateCache true [occNode 1] occR1.devices occR1.history occCbs 12

/-- Rebuild 3 (occupancy still 1). -/
def occR3 : RebuildResult :=
  updateCache true [occNode 1] occR2.devices occR2.history occCbs 13

/-- Rebuild 4 (occupancy back to 0). -/
def occR4 : RebuildResult :=
  updateCache true [occNode 0] occR3.devices occR3.history occCbs 14

/-- Rebuild 5 (occupancy 1 again). -/
def occR5 : RebuildResult :=
  updateCache true [occNode 1] occR4.devices occR4.history occCbs 15

/-- A cached light with `on_off = True` and `brightness_raw = 127`. -/
def brDevice : Device :=
  ⟨occId, 7, 1, [(kOnOff, PyVal.vbool true), (kBrightnessRaw, PyVal.vint 127)]⟩

/-- A cached light with `on_off = False` and `brightness_raw = 127`. -/
def brOffDevice : Device :=
  ⟨occId, 7, 1, [(kOnOff, PyVal.vbool false), (kBrightnessRaw, PyVal.vint 127)]⟩

/-- A cached light with no `on_off` key and `brightness_raw = 127`. -/
def brNoStateDevice : Device :=
  ⟨occId, 7, 1, [(kBrightnessRaw, PyVal.vint 127)]⟩

/-- The lighting entry derived from `brOffDevice`. -/
def brOffEntry : LightingEntry := ⟨occId, [], some false, some 0, none⟩

/-- The lighting entry derived from `brNoStateDevice`. -/
def brNoEntry : LightingEntry := ⟨occId, [], none, some 0, none⟩

/-- A cached light with `on_off = True` and `color_temp_mireds = 6`. -/
def ctDevice6 : Device :=
  ⟨occId, 7, 1, [(kOnOff, PyVal.vbool true), (kColorTempMireds, PyVal.vint 6)]⟩

/-- A cached light with `on_off = True` and `color_temp_mireds = 200`. -/
def ctDevice200 : Device :=
  ⟨occId, 7, 1, [(kOnOff, PyVal.vbool true), (kColorTempMireds, PyVal.vint 200)]⟩

/-- The lighting entry derived from `ctDevice200`. -/
def ctEntry200 : LightingEntry :=
  ⟨occId, [], some true, none, some 5000⟩

/-- Device id of node 1, endpoint 1. -/
def devA : String := mkDeviceId 1 1

/-- Device id of node 2, endpoint 2. -/
def devB : String := mkDeviceId 2 2

/-- An alias that itself begins with the canonical `dev_` marker. -/
def devLikeName : String := "dev_9_9"

/-- The ordinary alias of the spec's example. -/
def kitchenName : String := "kitchen"

/-- A registry in which `devA` owns the `dev_`-shaped alias. -/
def regDevLike : List (String × List String) := [(devA, [devLikeName])]

/-- A registry in which `devA` owns the alias `kitchen`. -/
def regKitchen : List (String × List String) := [(devA, [kitchenName])]

/-- A file-existence test under which exactly `cbPath` exists. -/
def isfileCb : String → Bool := fun s => s == cbPath

/-! ## Helper lemmas -/

/-- Looking up a key in an appended association list skips a first part that
does not contain it. -/
lemma lookup_append_of_none {α : Type} (l1 l2 : List (String × α)) (k : String)
    (h : l1.lookup k = none) : (l1 ++ l2).lookup k = l2.lookup k := by
  induction l1 with
  | nil => simp
  | cons p rest ih =>
    simp only [List.lookup, List.cons_append] at h ⊢
    cases hpk : (k == p.1) with
    | true => simp [hpk] at h
    | false => simp only [hpk] at h ⊢; exact ih h

/-- `dictSet` makes the assigned key map to the assigned value. -/
lemma dictSet_lookup_self {α : Type} (d : List (String × α)) (k : String)
    (v : α) : (dictSet d k v).lookup k = some v := by
  induction d with
  | nil => simp [dictSet, List.lookup]
  | cons p rest ih =>
    by_cases h : p.1 = k
    · simp [dictSet, h, List.lookup]
    · have hne : (k == p.1) = false := by
        simp [beq_iff_eq]; exact fun hk => h hk.symm
      simp [dictSet, h, List.lookup, hne, ih]

/-- A successful `sensorExtract` yields the table entry's name as the key and
requires the table entry's cluster to be present. -/
lemma sensorExtract_some {attr : Nat → Nat → Option Int} {clusters : List Nat}
    {entry : Nat × String × Nat × Nat} {p : String × PyVal}
    (h : sensorExtract attr clusters entry = some p) :
    entry.1 ∈ clusters ∧ p.1 = entry.2.1 := by
  unfold sensorExtract at h
  by_cases hc : entry.1 ∈ clusters
  · simp only [hc, if_true] at h
    cases hv : attr entry.1 entry.2.2.1 with
    | none => rw [hv] at h; simp at h
    | some v => rw [hv] at h; simp at h; exact ⟨hc, by rw [← h]⟩
  · simp [hc] at h

/-- Skipping one sensor-table entry whose name is not the key looked up. -/
lemma lookup_sensor_cons_ne (attr : Nat → Nat → Option Int)
    (clusters : List Nat) (entry : Nat × String × Nat × Nat)
    (rest : List (Nat × String × Nat × Nat)) (k : String)
    (hne : entry.2.1 ≠ k) :
    ((entry :: rest).filterMap (sensorExtract attr clusters)).lookup k
      = (rest.filterMap (sensorExtract attr clusters)).lookup k := by
  rw [List.filterMap_cons]
  cases hx : sensorExtract attr clusters entry with
  | none => rfl
  | some p =>
    have hp := (sensorExtract_some hx).2
    have : (k == p.1) = false := by
      simp [beq_iff_eq, hp]; exact fun hk => hne hk.symm
    simp [List.lookup, this]

/-- In the states built for an endpoint whose endpoint carries the occupancy
cluster and whose occupancy attribute reads `v`, the `occupancy` key holds
`v`. -/
lemma buildStates_lookup_occupancy (attr : Nat → Nat → Option Int)
    (clusters : List Nat) (v : Int) (h1030 : 1030 ∈ clusters)
    (hv : attr 1030 0 = some v) :
    (buildStates attr clusters).lookup kOccupancy = some (PyVal.vint v) := by
  unfold buildStates
  rw [List.append_assoc, List.append_assoc]
  rw [lookup_append_of_none]
  · rw [lookup_append_of_none]
    · rw [lookup_append_of_none]
      · show ((SENSOR_CLUSTERS.filterMap (sensorExtract attr clusters)).lookup kOccupancy) = _
        unfold SENSOR_CLUSTERS
        rw [lookup_sensor_cons_ne _ _ _ _ _ (by decide)]
        rw [lookup_sensor_cons_ne _ _ _ _ _ (by decide)]
        rw [lookup_sensor_cons_ne _ _ _ _ _ (by decide)]
        rw [lookup_sensor_cons_ne _ _ _ _ _ (by decide)]
        rw [List.filterMap_cons]
        have hocc : sensorExtract attr clusters (1030, kOccupancy, 0, 1)
            = some (kOccupancy, PyVal.vint v) := by
          unfold sensorExtract
          simp [h1030, hv]
        rw [hocc]
        simp [List.lookup]
      · by_cases hc : 768 ∈ clusters <;> simp [hc, List.lookup, kColorTempMireds, kOccupancy]
    · by_cases hc : 8 ∈ clusters <;> simp [hc, List.lookup, kBrightnessRaw, kOccupancy]
  · by_cases hc : 6 ∈ clusters <;> simp [hc, List.lookup, kOnOff, kOccupancy]

/-- In a device list with no repeated ids, searching for a member's id finds
that member. -/
lemma find?_eq_self_of_nodup (l : List Device) (d : Device) (hd : d ∈ l)
    (hnd : (l.map Device.id).Nodup) :
    l.find? (fun x => x.id == d.id) = some d := by
  induction l with
  | nil => cases hd
  | cons a rest ih =>
    rw [List.map_cons, List.nodup_cons] at hnd
    by_cases h : (a.id == d.id) = true
    · have had : a.id = d.id := by simpa [beq_iff_eq] using h
      have had' : d = a := by
        rcases List.mem_cons.mp hd with h1 | h2
        · exact h1
        · exact absurd (had ▸ List.mem_map_of_mem Device.id h2) hnd.1
      rw [had']
      simp [List.find?, h]
    · have hne : a.id ≠ d.id := by simpa [beq_iff_eq] using h
      have hd' : d ∈ rest := by
        rcases List.mem_cons.mp hd with h1 | h2
        · subst h1; exact absurd rfl hne
        · exact h2
      have hb : (a.id == d.id) = false := by simpa [beq_iff_eq] using hne
      simp only [List.find?, hb]
      exact ih hd' hnd.2

/-- The endpoint loop appends exactly the devices of the node's endpoints. -/
lemma foldl_endpoints_devices (cached : List Device)
    (callbacks : List (String × String)) (now : Int) (node : MeshNode)
    (eps : List (Nat × List Nat)) (acc : RebuildResult) :
    (eps.foldl (fun a ep => processEndpoint cached callbacks now node ep a)
        acc).devices
      = acc.devices ++ eps.map (deviceOf node) := by
  induction eps generalizing acc with
  | nil => simp
  | cons ep rest ih =>
    rw [List.foldl_cons, ih]
    simp [processEndpoint, List.append_assoc]

/-- The node loop appends exactly the devices of the whole mesh. -/
lemma foldl_mesh_devices (cached : List Device)
    (callbacks : List (String × String)) (now : Int) (mesh : List MeshNode)
    (acc : RebuildResult) :
    (mesh.foldl
        (fun a node =>
          node.endpoints.foldl
            (fun a2 ep => processEndpoint cached callbacks now node ep a2) a)
        acc).devices
      = acc.devices ++ devicesOf mesh := by
  induction mesh generalizing acc with
  | nil => simp [devicesOf]
  | cons node rest ih =>
    rw [List.foldl_cons, ih, foldl_endpoints_devices]
    simp [devicesOf, List.append_assoc]

/-- A rebuild with the client set always produces the snapshot determined by
the mesh alone. -/
lemma updateCache_devices (mesh : List MeshNode) (cached : List Device)
    (hist : List (String × Int)) (callbacks : List (String × String))
    (now : Int) :
    (updateCache true mesh cached hist callbacks now).devices
      = devicesOf mesh := by
  unfold updateCache
  rw [if_pos rfl, foldl_mesh_devices]
  rfl

/-- An endpoint whose rising-edge condition is false only appends its device
entry. -/
lemma processEndpoint_norise (cached : List Device)
    (callbacks : List (String × String)) (now : Int) (node : MeshNode)
    (ep : Nat × List Nat) (acc : RebuildResult)
    (h : occupancyRise cached (node.attr ep.1) ep.2
        (mkDeviceId node.node_id ep.1) = false) :
    processEndpoint cached callbacks now node ep acc
      = { acc with devices := acc.devices ++ [deviceOf node ep] } := by
  simp [processEndpoint, h]

/-- A previous-snapshot occupancy value that does not compare equal to 0
prevents the rising edge. -/
lemma occupancyRise_of_prev_nonzero (cached : List Device)
    (attr : Nat → Nat → Option Int) (clusters : List Nat) (device_id : String)
    (h : pyEqZero (prevOccupancyVal cached device_id) = false) :
    occupancyRise cached attr clusters device_id = false := by
  unfold occupancyRise
  by_cases hc : 1030 ∈ clusters
  · simp only [hc, if_true]
    cases attr 1030 0 with
    | none => rfl
    | some v => simp [h]
  · simp [hc]

/-- If no endpoint of the node raises an edge, the endpoint loop only appends
devices and leaves history, flag and callback queue untouched. -/
lemma foldl_endpoints_norise (cached : List Device)
    (callbacks : List (String × String)) (now : Int) (node : MeshNode)
    (eps : List (Nat × List Nat)) (acc : RebuildResult)
    (h : ∀ ep ∈ eps, occupancyRise cached (node.attr ep.1) ep.2
        (mkDeviceId node.node_id ep.1) = false) :
    eps.foldl (fun a ep => processEndpoint cached callbacks now node ep a) acc
      = { acc with devices := acc.devices ++ eps.map (deviceOf node) } := by
  induction eps generalizing acc with
  | nil => simp
  | cons ep rest ih =>
    rw [List.foldl_cons,
      processEndpoint_norise cached callbacks now node ep acc
        (h ep (List.mem_cons_self ep rest)),
      ih _ (fun e he => h e (List.mem_cons_of_mem ep he))]
    simp [List.append_assoc]

/-- If no endpoint of the mesh raises an edge, a rebuild returns the fresh
snapshot with unchanged history, a false flag and no triggered callbacks. -/
lemma updateCache_norise (mesh : List MeshNode) (cached : List Device)
    (hist : List (String × Int)) (callbacks : List (String × String))
    (now : Int)
    (h : ∀ node ∈ mesh, ∀ ep ∈ node.endpoints,
        occupancyRise cached (node.attr ep.1) ep.2
          (mkDeviceId node.node_id ep.1) = false) :
    updateCache true mesh cached hist callbacks now
      = ⟨devicesOf mesh, hist, false, []⟩ := by
  unfold updateCache
  rw [if_pos rfl]
  have main : ∀ (ms : List MeshNode) (acc : RebuildResult),
      (∀ node ∈ ms, ∀ ep ∈ node.endpoints,
        occupancyRise cached (node.attr ep.1) ep.2
          (mkDeviceId node.node_id ep.1) = false) →
      ms.foldl
        (fun a node =>
          node.endpoints.foldl
            (fun a2 ep => processEndpoint cached callbacks now node ep a2) a)
        acc
      = { acc with devices := acc.devices ++ devicesOf ms } := by
    intro ms
    induction ms with
    | nil => intro acc _; simp [devicesOf]
    | cons node rest ih =>
      intro acc hh
      rw [List.foldl_cons,
        foldl_endpoints_norise cached callbacks now node node.endpoints acc
          (hh node (List.mem_cons_self node rest)),
        ih _ (fun n hn e he => hh n (List.mem_cons_of_mem node hn) e he)]
      simp [devicesOf, List.append_assoc]
  rw [main mesh ⟨[], hist, false, []⟩ h]
  rfl

/-- Against a previous snapshot that is exactly the snapshot the mesh itself
produces (and has no repeated ids), no endpoint raises an edge: an occupancy
value already 1 finds itself at value 1 in the previous snapshot. -/
lemma occupancyRise_self (mesh : List MeshNode)
    (hnd : ((devicesOf mesh).map Device.id).Nodup)
    (node : MeshNode) (hn : node ∈ mesh) (ep : Nat × List Nat)
    (hep : ep ∈ node.endpoints) :
    occupancyRise (devicesOf mesh) (node.attr ep.1) ep.2
      (mkDeviceId node.node_id ep.1) = false := by
  unfold occupancyRise
  by_cases hc : 1030 ∈ ep.2
  · simp only [hc, if_true]
    cases hv : node.attr ep.1 1030 0 with
    | none => rfl
    | some v =>
      by_cases hv1 : v = 1
      · subst hv1
        have hmem : deviceOf node ep ∈ devicesOf mesh := by
          unfold devicesOf
          exact List.mem_flatMap.mpr
            ⟨node, hn, List.mem_map_of_mem (deviceOf node) hep⟩
        have hfind : (devicesOf mesh).find?
            (fun d => d.id == mkDeviceId node.node_id ep.1)
              = some (deviceOf node ep) :=
          find?_eq_self_of_nodup (devicesOf mesh) (deviceOf node ep) hmem hnd
        have hocc : (deviceOf node ep).states.lookup kOccupancy
            = some (PyVal.vint 1) :=
          buildStates_lookup_occupancy (node.attr ep.1) ep.2 1 hc hv
        have hprev : prevOccupancyVal (devicesOf mesh)
            (mkDeviceId node.node_id ep.1) = PyVal.vint 1 := by
          unfold prevOccupancyVal
          rw [hfind]
          show ((deviceOf node ep).states.lookup kOccupancy).getD (PyVal.vint 0)
            = PyVal.vint 1
          rw [hocc]
          rfl
        simp [hprev, pyEqZero]
      · have hb : (v == 1) = false := by simpa [beq_iff_eq] using hv1
        simp [hb]
  · simp [hc]

/-- A device that appears in the lighting view carries exactly the derived
state, brightness and temperature of its states dictionary. -/
lemma lightingEntryOf_fields (device_names : List (String × List String))
    (d : Device) (e : LightingEntry)
    (he : lightingEntryOf device_names d = some e) :
    e.state = pyGetBool d.states kOnOff
    ∧ e.brightness = lightingBrightness d.states
    ∧ e.temperature = lightingTemp d.states := by
  unfold lightingEntryOf at he
  split at he
  · cases he
    exact ⟨rfl, rfl, rfl⟩
  · cases he

/-! ## Claim theorems -/

/-- C1 counterexample: for brightness 0.4 the code sends a level command with
level `max(1, int(0.4*254)) = 101`, not the claimed
`max(1, round(0.4*254)) = 102` — `int()` truncates where the claim rounds. -/
theorem set_level_counterexample :
    setCommands (some (2/5)) none = [Command.moveToLevelWithOnOff 101 0]
    ∧ specLevel (2/5) = 102
    ∧ [Command.moveToLevelWithOnOff 101 0]
        ≠ [Command.moveToLevelWithOnOff 102 0] := by
  refine ⟨?_, ?_, by decide⟩
  · norm_num [setCommands, Int.floor_eq_iff]
  · norm_num [specLevel, roundHalfEven, Int.floor_eq_iff]

/-- C1 (amended): a request with brightness 0.0 sends exactly one off command
and no level command; a request with brightness 0.4 sends exactly one level
command with level `max(1, int(0.4*254)) = 101` and no off command. -/
theorem set_brightness_dispatch :
    setCommands (some 0) none = [Command.off]
    ∧ setCommands (some (2/5)) none = [Command.moveToLevelWithOnOff 101 0] := by
  constructor
  · norm_num [setCommands]
  · norm_num [setCommands, Int.floor_eq_iff]

/-- C2 counterexample: for mireds 6 the lighting view reports
`int(1000000/6) = 166666`, not the claimed `round(1000000/6) = 166667`. -/
theorem lighting_kelvin_counterexample :
    (serve_lighting_api [] [ctDevice6]).map LightingEntry.temperature
      = [some 166666]
    ∧ specRoundKelvin 6 = 166667
    ∧ ((some 166666 : Option Int) ≠ some 166667) := by
  refine ⟨by decide, ?_, by decide⟩
  norm_num [specRoundKelvin, roundHalfEven, Int.floor_eq_iff]

/-- C2 (amended): for every device in the lighting view with a mireds value
`m`, the reported temperature is `int(1000000/m)` (truncating division, not
rounding) when `m > 0`, and is omitted — never zero, infinite or a division
fault — when the mireds key is absent, `None`, or `m ≤ 0`. -/
theorem lighting_temperature_floor (device_names : List (String × List String))
    (d : Device) (e : LightingEntry)
    (he : lightingEntryOf device_names d = some e) :
    (∀ m : Int, d.states.lookup kColorTempMireds = some (PyVal.vint m) →
      (0 < m → e.temperature = some (1000000 / m))
      ∧ (m ≤ 0 → e.temperature = none))
    ∧ (d.states.lookup kColorTempMireds = none → e.temperature = none)
    ∧ (d.states.lookup kColorTempMireds = some PyVal.vnone
        → e.temperature = none) := by
  have ht := (lightingEntryOf_fields device_names d e he).2.2
  refine ⟨?_, ?_, ?_⟩
  · intro m hm
    constructor
    · intro hpos
      rw [ht]
      unfold lightingTemp
      rw [hm]
      simp [hpos]
    · intro hneg
      rw [ht]
      unfold lightingTemp
      rw [hm]
      simp [not_lt.mpr hneg]
  · intro hm
    rw [ht]
    unfold lightingTemp
    rw [hm]
  · intro hm
    rw [ht]
    unfold lightingTemp
    rw [hm]

/-- C2 witness: the mireds-200 device yields temperature 5000 through the
amended theorem. -/
theorem lighting_temperature_floor_witness :
    lightingEntryOf [] ctDevice200 = some ctEntry200
    ∧ (0:Int) < 200
    ∧ ctEntry200.temperature = some 5000 := by
  refine ⟨by decide, by decide, ?_⟩
  have h := ((lighting_temperature_floor [] ctDevice200 ctEntry200
    (by decide)).1 200 (by decide)).1 (by decide)
  exact h.trans (by decide)

/-- C3 counterexample: after `establish_connection` in which every connect
attempt fails — so the mesh connection is never established and the call
returns `False` — the `require_server_ready` guard nevertheless passes
(no 503), because the client object was constructed before connecting. -/
theorem ready_guard_counterexample :
    (establish_connection (fun _ => false)).2 = false
    ∧ require_server_ready_rejects
        (establish_connection (fun _ => false)).1 = false := by
  exact ⟨by decide, rfl⟩

/-- C3 (amended): the guard rejects with 503 exactly when the client object
is unset; it is unset before `establish_connection` first runs, and
`establish_connection` sets it before attempting to connect, so afterwards
the guard passes whether or not any connect attempt succeeded. -/
theorem ready_guard_tracks_client_object :
    (∀ c : Option Unit, require_server_ready_rejects c = true ↔ c = none)
    ∧ (∀ connect_ok : Nat → Bool,
        is_ready (establish_connection connect_ok).1 = true)
    ∧ require_server_ready_rejects none = true := by
  refine ⟨?_, ?_, rfl⟩
  · intro c
    cases c <;> simp [require_server_ready_rejects, is_ready]
  · intro f
    rfl

/-- C4: the occupancy sequence `[0,1,1,0,1]` across five rebuilds of a single
device records exactly two timestamps (at rebuilds 2 and 5, the 0-to-1
transitions) and fires the registered callback exactly there; the rebuild
with occupancy already 1 does not re-stamp.  In general, an endpoint whose
device compared unequal to 0 in the previous snapshot leaves the history,
the updated flag and the callback queue untouched. -/
theorem occupancy_edge_sequence :
    (occR1.occupancy_updated = false ∧ occR1.history = []
      ∧ occR2.occupancy_updated = true ∧ occR2.history = [(occId, 12)]
      ∧ occR2.triggered = [cbPath]
      ∧ occR3.occupancy_updated = false ∧ occR3.history = [(occId, 12)]
      ∧ occR3.triggered = []
      ∧ occR4.occupancy_updated = false ∧ occR4.history = [(occId, 12)]
      ∧ occR5.occupancy_updated = true ∧ occR5.history = [(occId, 15)]
      ∧ occR5.triggered = [cbPath])
    ∧ (∀ (cached : List Device) (callbacks : List (String × String))
          (now : Int) (node : MeshNode) (ep : Nat × List Nat)
          (acc : RebuildResult),
        pyEqZero (prevOccupancyVal cached (mkDeviceId node.node_id ep.1))
            = false →
        (processEndpoint cached callbacks now node ep acc).history = acc.history
        ∧ (processEndpoint cached callbacks now node ep acc).occupancy_updated
            = acc.occupancy_updated
        ∧ (processEndpoint cached callbacks now node ep acc).triggered
            = acc.triggered) := by
  constructor
  · decide
  · intro cached callbacks now node ep acc h
    rw [processEndpoint_norise cached callbacks now node ep acc
      (occupancyRise_of_prev_nonzero cached (node.attr ep.1) ep.2 _ h)]
    exact ⟨rfl, rfl, rfl⟩

/-- C4 witness: with the previous snapshot holding occupancy 1 for the
device, an endpoint read of the same device stamps nothing. -/
theorem occupancy_edge_sequence_witness :
    pyEqZero (prevOccupancyVal occR2.devices (mkDeviceId 7 1)) = false
    ∧ (processEndpoint occR2.devices occCbs 99 (occNode 1) (1, [1030])
        ⟨[], [], false, []⟩).history = [] := by
  refine ⟨by decide, ?_⟩
  exact (occupancy_edge_sequence.2 occR2.devices occCbs 99 (occNode 1)
    (1, [1030]) ⟨[], [], false, []⟩ (by decide)).1

/-- C5: rebuilding twice over an unchanged mesh (with no repeated device ids
in the snapshot) reproduces the identical device list, leaves the occupancy
history unchanged, reports no occupancy update and triggers no callbacks. -/
theorem rebuild_idempotent (mesh : List MeshNode) (cached0 : List Device)
    (hist0 : List (String × Int)) (callbacks : List (String × String))
    (n1 n2 : Int)
    (hnd : ((updateCache true mesh cached0 hist0 callbacks n1).devices.map
        Device.id).Nodup) :
    (updateCache true mesh
        (updateCache true mesh cached0 hist0 callbacks n1).devices
        (updateCache true mesh cached0 hist0 callbacks n1).history
        callbacks n2).devices
      = (updateCache true mesh cached0 hist0 callbacks n1).devices
    ∧ (updateCache true mesh
        (updateCache true mesh cached0 hist0 callbacks n1).devices
        (updateCache true mesh cached0 hist0 callbacks n1).history
        callbacks n2).history
      = (updateCache true mesh cached0 hist0 callbacks n1).history
    ∧ (updateCache true mesh
        (updateCache true mesh cached0 hist0 callbacks n1).devices
        (updateCache true mesh cached0 hist0 callbacks n1).history
        callbacks n2).occupancy_updated = false
    ∧ (updateCache true mesh
        (updateCache true mesh cached0 hist0 callbacks n1).devices
        (updateCache true mesh cached0 hist0 callbacks n1).history
        callbacks n2).triggered = [] := by
  have h1 : (updateCache true mesh cached0 hist0 callbacks n1).devices
      = devicesOf mesh := updateCache_devices mesh cached0 hist0 callbacks n1
  rw [h1] at hnd ⊢
  rw [updateCache_norise mesh (devicesOf mesh)
    (updateCache true mesh cached0 hist0 callbacks n1).history callbacks n2
    (fun node hn ep hep => occupancyRise_self mesh hnd node hn ep hep)]
  exact ⟨rfl, rfl, rfl, rfl⟩

/-- C5 witness: a one-device mesh with occupancy 1 rebuilt twice. -/
theorem rebuild_idempotent_witness :
    ((updateCache true [occNode 1] [] [] occCbs 5).devices.map Device.id).Nodup
    ∧ (updateCache true [occNode 1]
        (updateCache true [occNode 1] [] [] occCbs 5).devices
        (updateCache true [occNode 1] [] [] occCbs 5).history
        occCbs 6).triggered = [] := by
  refine ⟨by decide, ?_⟩
  exact (rebuild_idempotent [occNode 1] [] [] occCbs 5 6 (by decide)).2.2.2

/-- C6: raw level 127 with state true yields brightness exactly 0.5 in the
lighting view, and any device with a raw level present whose `on_off` state
is false reports brightness exactly 0.0, regardless of the raw level. -/
theorem brightness_half_and_forced_zero :
    ((serve_lighting_api [] [brDevice]).map LightingEntry.brightness
      = [some (1/2)])
    ∧ (∀ (device_names : List (String × List String)) (d : Device)
          (e : LightingEntry) (v : Int),
        lightingEntryOf device_names d = some e →
        d.states.lookup kBrightnessRaw = some (PyVal.vint v) →
        d.states.lookup kOnOff = some (PyVal.vbool false) →
        e.brightness = some 0) := by
  constructor
  · have hb : lightingBrightness brDevice.states = some (1/2) := by
      have h1 : brDevice.states.lookup kBrightnessRaw
          = some (PyVal.vint 127) := by decide
      have h2 : pyTruthy (pyGetBool brDevice.states kOnOff) = true := by decide
      unfold lightingBrightness
      rw [h1]
      norm_num [h2, pyRound2, roundHalfEven, Int.floor_eq_iff]
    have hst : pyGetBool brDevice.states kOnOff = some true := by decide
    have htm : lightingTemp brDevice.states = none := by decide
    have hl : lightingEntryOf [] brDevice
        = some ⟨occId, [], some true, some (1/2), none⟩ := by
      unfold lightingEntryOf
      rw [if_pos (by decide)]
      rw [hst, hb, htm]
      rfl
    simp [serve_lighting_api, List.filterMap_cons, hl]
  · intro device_names d e v he hbr hoff
    have hb := (lightingEntryOf_fields device_names d e he).2.1
    rw [hb]
    unfold lightingBrightness
    rw [hbr]
    have hf : pyTruthy (pyGetBool d.states kOnOff) = false := by
      unfold pyTruthy pyGetBool
      rw [hoff]
      rfl
    simp [hf]

/-- C6 witness: the level-127 device with state false reports brightness 0. -/
theorem brightness_half_and_forced_zero_witness :
    lightingEntryOf [] brOffDevice = some brOffEntry
    ∧ brOffDevice.states.lookup kBrightnessRaw = some (PyVal.vint 127)
    ∧ brOffDevice.states.lookup kOnOff = some (PyVal.vbool false)
    ∧ brOffEntry.brightness = some 0 := by
  refine ⟨by decide, by decide, by decide, ?_⟩
  exact brightness_half_and_forced_zero.2 [] brOffDevice brOffEntry 127
    (by decide) (by decide) (by decide)

/-- C10: with a raw level present, only an `on_off` state of exactly `True`
yields the scaled brightness; a state of `False`, `None`, or an absent
`on_off` key — any falsy state — forces brightness to exactly 0.0. -/
theorem brightness_requires_true_state
    (device_names : List (String × List String)) (d : Device)
    (e : LightingEntry) (v : Int)
    (he : lightingEntryOf device_names d = some e)
    (hbr : d.states.lookup kBrightnessRaw = some (PyVal.vint v)) :
    (pyGetBool d.states kOnOff = some true →
      e.brightness = some (pyRound2 (max 0 (min 1 ((v : ℚ) / 254)))))
    ∧ (pyGetBool d.states kOnOff ≠ some true → e.brightness = some 0) := by
  have hb := (lightingEntryOf_fields device_names d e he).2.1
  constructor
  · intro hst
    rw [hb]
    unfold lightingBrightness
    rw [hbr]
    have ht : pyTruthy (pyGetBool d.states kOnOff) = true := by
      unfold pyTruthy
      rw [hst]
      rfl
    simp [ht]
  · intro hst
    rw [hb]
    unfold lightingBrightness
    rw [hbr]
    have hf : pyTruthy (pyGetBool d.states kOnOff) = false := by
      unfold pyTruthy
      cases hgb : pyGetBool d.states kOnOff with
      | none => rfl
      | some b =>
        cases b with
        | false => rfl
        | true => exact absurd hgb hst
    simp [hf]

/-- C10 witness: a device with a raw level but no `on_off` key at all still
reports brightness 0. -/
theorem brightness_requires_true_state_witness :
    lightingEntryOf [] brNoStateDevice = some brNoEntry
    ∧ brNoStateDevice.states.lookup kBrightnessRaw = some (PyVal.vint 127)
    ∧ pyGetBool brNoStateDevice.states kOnOff ≠ some true
    ∧ brNoEntry.brightness = some 0 := by
  refine ⟨by decide, by decide, by decide, ?_⟩
  exact (brightness_requires_true_state [] brNoStateDevice brNoEntry 127
    (by decide) (by decide)).2 (by decide)

/-- C7 counterexample: an alias that itself begins with `dev_` ("dev_9_9",
owned by device A) still conflicts and leaves the registry unchanged when
device B requests it, but resolving it afterwards returns the alias itself —
the canonical-id fast path — not A's device id. -/
theorem alias_conflict_counterexample :
    serve_name_api regDevLike devB devLikeName
      = (NameResult.conflict, regDevLike)
    ∧ resolve_id_core regDevLike devLikeName = devLikeName
    ∧ devLikeName ≠ devA := by
  exact ⟨by decide, by decide, by decide⟩

/-- C7 (amended): whenever the requested name is already owned by a device id
other than the requester's resolved id, assignment fails with the 409
conflict and the registry is unchanged; and if additionally the name does not
begin with the canonical `dev_` marker, resolving it afterwards still returns
the owning device id. -/
theorem alias_conflict_preserves_owner
    (reg : List (String × List String)) (b new_name : String)
    (hb : ¬ b = "") (hn : ¬ new_name = "")
    (hcf : ∃ p ∈ reg, p.2.contains new_name = true
        ∧ p.1 ≠ resolve_id_core reg b) :
    serve_name_api reg b new_name = (NameResult.conflict, reg)
    ∧ (startsWithDev new_name = false →
        ∀ pa, reg.find? (fun p => p.2.contains new_name) = some pa →
          resolve_id_core reg new_name = pa.1) := by
  constructor
  · have hany : reg.any
        (fun p => p.2.contains new_name && p.1 != resolve_id_core reg b)
          = true := by
      rcases hcf with ⟨p, hp, hc1, hc2⟩
      refine List.any_eq_true.mpr ⟨p, hp, ?_⟩
      rw [hc1]
      simp [bne_iff_ne, hc2]
    unfold serve_name_api
    rw [if_neg (by simp [hb, hn])]
    rw [if_pos hany]
  · intro hpre pa hfind
    unfold resolve_id_core
    rw [if_neg (by simp [hpre])]
    rw [hfind]

/-- C7 witness: the spec's `kitchen` scenario run through the amended
theorem. -/
theorem alias_conflict_preserves_owner_witness :
    (¬ devB = "") ∧ (¬ kitchenName = "")
    ∧ (∃ p ∈ regKitchen, p.2.contains kitchenName = true
        ∧ p.1 ≠ resolve_id_core regKitchen devB)
    ∧ serve_name_api regKitchen devB kitchenName
        = (NameResult.conflict, regKitchen)
    ∧ resolve_id_core regKitchen kitchenName = devA := by
  refine ⟨by decide, by decide,
    ⟨(devA, [kitchenName]), by decide, by decide, by decide⟩, ?_, ?_⟩
  · exact (alias_conflict_preserves_owner regKitchen devB kitchenName
      (by decide) (by decide)
      ⟨(devA, [kitchenName]), by decide, by decide, by decide⟩).1
  · exact (alias_conflict_preserves_owner regKitchen devB kitchenName
      (by decide) (by decide)
      ⟨(devA, [kitchenName]), by decide, by decide, by decide⟩).2
      (by decide) (devA, [kitchenName]) (by decide)

/-- In a duplicate-free list, a member occurs exactly once (stated for any
lawful boolean equality). -/
lemma count_eq_one_of_mem_beq {α : Type} [BEq α] [LawfulBEq α] (a : α) :
    ∀ l : List α, l.Nodup → a ∈ l → l.count a = 1 := by
  intro l
  induction l with
  | nil => intro _ h; cases h
  | cons x xs ih =>
    intro hnd ha
    rw [List.count_cons]
    rcases List.mem_cons.mp ha with rfl | hmem
    · rw [List.count_eq_zero.mpr (List.nodup_cons.mp hnd).1]
      simp
    · rw [ih (List.nodup_cons.mp hnd).2 hmem]
      have hx : ¬ x = a := by
        intro h
        subst h
        exact (List.nodup_cons.mp hnd).1 hmem
      simp [hx]

/-- Every key of the states built for an endpoint belongs to a cluster
present on that endpoint. -/
lemma buildStates_keys (attr : Nat → Nat → Option Int) (clusters : List Nat)
    (p : String × PyVal) (hp : p ∈ buildStates attr clusters) :
    clusterOfKey p.1 ∈ clusters := by
  unfold buildStates at hp
  rcases List.mem_append.mp hp with hp3 | hpS
  · rcases List.mem_append.mp hp3 with hp2 | hpC
    · rcases List.mem_append.mp hp2 with hpA | hpB
      · by_cases h6 : 6 ∈ clusters
        · rw [if_pos h6] at hpA
          rcases List.mem_singleton.mp hpA with rfl
          simpa [clusterOfKey] using h6
        · rw [if_neg h6] at hpA
          cases hpA
      · by_cases h8 : 8 ∈ clusters
        · rw [if_pos h8] at hpB
          rcases List.mem_singleton.mp hpB with rfl
          have : clusterOfKey kBrightnessRaw = 8 := by decide
          simpa [this] using h8
        · rw [if_neg h8] at hpB
          cases hpB
    · by_cases h768 : 768 ∈ clusters
      · rw [if_pos h768] at hpC
        rcases List.mem_singleton.mp hpC with rfl
        have : clusterOfKey kColorTempMireds = 768 := by decide
        simpa [this] using h768
      · rw [if_neg h768] at hpC
        cases hpC
  · rcases List.mem_filterMap.mp hpS with ⟨entry, hentry, hx⟩
    rcases sensorExtract_some hx with ⟨hcl, hname⟩
    have htbl : ∀ e ∈ SENSOR_CLUSTERS, clusterOfKey e.2.1 = e.1 := by decide
    rw [hname, htbl entry hentry]
    exact hcl

/-- C8: after every rebuild the snapshot is exactly the per-endpoint device
list of the mesh; its `(node_id, endpoint_id)` projection is the enumerated
pair list, so with distinct pairs every enumerated pair owns exactly one
entry; and each entry's states dictionary carries keys only for clusters
present on its endpoint. -/
theorem snapshot_entries (mesh : List MeshNode) (cached : List Device)
    (hist : List (String × Int)) (callbacks : List (String × String))
    (now : Int) :
    (updateCache true mesh cached hist callbacks now).devices = devicesOf mesh
    ∧ ((devicesOf mesh).map (fun d => (d.node_id, d.endpoint_id))
        = meshPairs mesh)
    ∧ ((meshPairs mesh).Nodup → ∀ pr ∈ meshPairs mesh,
        ((devicesOf mesh).map (fun d => (d.node_id, d.endpoint_id))).count pr
          = 1)
    ∧ (∀ node ∈ mesh, ∀ ep ∈ node.endpoints,
        ∀ p ∈ (deviceOf node ep).states, clusterOfKey p.1 ∈ ep.2) := by
  have hpairs : (devicesOf mesh).map (fun d => (d.node_id, d.endpoint_id))
      = meshPairs mesh := by
    unfold devicesOf meshPairs
    rw [List.map_flatMap]
    simp only [List.map_map]
    rfl
  refine ⟨updateCache_devices mesh cached hist callbacks now, hpairs, ?_, ?_⟩
  · intro hnd pr hpr
    rw [hpairs]
    exact count_eq_one_of_mem_beq pr (meshPairs mesh) hnd hpr
  · intro node hn ep hep p hp
    exact buildStates_keys (node.attr ep.1) ep.2 p hp

/-- C8 witness: the one-sensor mesh has distinct pairs and exactly one
snapshot entry for its pair. -/
theorem snapshot_entries_witness :
    (meshPairs [occNode 1]).Nodup
    ∧ (7, 1) ∈ meshPairs [occNode 1]
    ∧ ((devicesOf [occNode 1]).map
        (fun d => (d.node_id, d.endpoint_id))).count (7, 1) = 1 := by
  refine ⟨by decide, by decide, ?_⟩
  exact (snapshot_entries [occNode 1] [] [] [] 0).2.2.1 (by decide)
    (7, 1) (by decide)

/-- C9: callback registration is rejected with an error — registry and
persisted store untouched — exactly when the script path does not name an
existing file; when the file exists, registration succeeds, overwrites any
prior registration for the resolved device id, and persists. -/
theorem callback_registration (isfile : String → Bool)
    (device_names : List (String × List String))
    (reg : List (String × String)) (device_id script_path : String)
    (hid : ¬ device_id = "") (hs : ¬ script_path = "") :
    (isfile script_path = false →
      serve_callback_api isfile device_names reg device_id script_path
        = (CallbackResult.invalidReference, reg, false))
    ∧ (isfile script_path = true →
      serve_callback_api isfile device_names reg device_id script_path
        = (CallbackResult.ok (resolve_id_core device_names device_id)
            script_path,
           dictSet reg (resolve_id_core device_names device_id) script_path,
           true)
      ∧ (dictSet reg (resolve_id_core device_names device_id)
          script_path).lookup (resolve_id_core device_names device_id)
          = some script_path) := by
  constructor
  · intro hf
    unfold serve_callback_api
    rw [if_neg (by simp [hid, hs])]
    rw [if_pos (by simp [hf])]
  · intro hf
    constructor
    · unfold serve_callback_api
      rw [if_neg (by simp [hid, hs])]
      rw [if_neg (by simp [hf])]
    · exact dictSet_lookup_self reg (resolve_id_core device_names device_id)
        script_path

/-- C9 witness: registering an existing script for the occupancy sensor. -/
theorem callback_registration_witness :
    (¬ occId = "") ∧ (¬ cbPath = "") ∧ isfileCb cbPath = true
    ∧ serve_callback_api isfileCb [] [] occId cbPath
        = (CallbackResult.ok occId cbPath, [(occId, cbPath)], true) := by
  refine ⟨by decide, by decide, by decide, ?_⟩
  have h := ((callback_registration isfileCb [] [] occId cbPath
    (by decide) (by decide)).2 (by decide)).1
  exact h.trans (by decide)
